import Mathlib

/-!
Verification of the llm-observatory adapter/tracking core.

Shallow embedding of the configuration tables (src/config/settings.py), the
adapter construction and generation logic (src/llm/base.py,
src/llm/openai_llm.py, src/llm/anthropic_llm.py, src/llm/gemini_llm.py) and
the dashboard history buffer (src/interface/app.py).

Modelling conventions:
- Python dicts of rates become `Option CostRate` (`none` = the empty dict
  returned by `Settings.get_model_cost` for a missing entry).
- Vendor calls are an environment parameter `calls : Nat -> Except String r`:
  `calls i` is the outcome of the i-th attempt; the `String` is the message of
  the vendor exception class that the retry loop catches (OpenAIError,
  anthropic.APIError, any Exception for Gemini).
- Wall-clock elapsed time `response_time` is an environment parameter (the
  difference of the two `time.time()` reads), a rational number of seconds.
- Python floats are modelled as exact rationals; `round(x, n)` becomes
  nearest-integer rounding of `x * 10^n` (tie direction immaterial to every
  property proved here).
- Raised exceptions become `Except.error` values; the constructors of
  `SetupError` / `GenError` record which `raise` site fired.
-/

namespace LLMObservatory

/-- A cost-rate entry: price per 1000 tokens (settings.py `MODEL_COSTS`). -/
structure CostRate where
  input : ℚ
  output : ℚ
deriving Repr, DecidableEq

/-- settings.py `LLMConfig.OPENAI_MODELS`. -/
def OPENAI_MODELS : List String :=
  ["gpt-4-turbo-preview", "gpt-4", "gpt-3.5-turbo"]

/-- settings.py `LLMConfig.ANTHROPIC_MODELS`. -/
def ANTHROPIC_MODELS : List String :=
  ["claude-3-5-sonnet-latest", "claude-3-opus-latest", "claude-3-haiku-20240307"]

/-- settings.py `LLMConfig.GEMINI_MODELS`. -/
def GEMINI_MODELS : List String :=
  ["gemini-1", "gemini-2"]

/-- settings.py `LLMConfig.DEFAULT_PARAMETERS["retry_attempts"]`. -/
def retry_attempts : ℕ := 3

/-- settings.py `Settings.MODEL_COSTS` (prices per 1000 tokens, as exact
rationals: 0.01 = 1/100 and so on). There is no "gemini" provider entry. -/
def MODEL_COSTS : List (String × List (String × CostRate)) :=
  [("openai",
     [("gpt-4-turbo-preview", ⟨1/100, 3/100⟩),
      ("gpt-4", ⟨3/100, 6/100⟩),
      ("gpt-3.5-turbo", ⟨5/10000, 15/10000⟩)]),
   ("anthropic",
     [("claude-3-5-sonnet-latest", ⟨3/1000, 15/1000⟩),
      ("claude-3-opus-latest", ⟨15/1000, 75/1000⟩),
      ("claude-3-haiku-20240307", ⟨15/1000, 75/1000⟩)])]

/-- settings.py `Settings.get_model_cost`: `MODEL_COSTS.get(provider, \x7b\x7d).get(model, \x7b\x7d)`;
`none` models the empty dict returned when either key is absent. -/
def get_model_cost (provider model : String) : Option CostRate :=
  match MODEL_COSTS.lookup provider with
  | none => none
  | some table => table.lookup model

/-- The distinct `raise` sites reachable during adapter construction.
The source raises the single class `LLMException` everywhere; the spec's
taxonomy calls construction-time failures `ConfigurationError`. -/
inductive SetupError where
  /-- base.py line 95: `raise LLMException("API key is required")`. -/
  | missingApiKey
  /-- gemini_llm.py line 22: GOOGLE_APPLICATION_CREDENTIALS is not set. -/
  | missingCredentials
  /-- `raise LLMException(f"Invalid model: ...")` in each adapter's setup. -/
  | invalidModel (m : String)
deriving Repr, DecidableEq

/-- openai_llm.py `OpenAILLM.setup`: default the model to "gpt-3.5-turbo",
then reject it unless it is in `OPENAI_MODELS`. Client creation is an
external call, out of scope. Returns the validated model name. -/
def openai_setup (model : Option String) : Except SetupError String :=
  let m := model.getD "gpt-3.5-turbo"
  if m ∈ OPENAI_MODELS then .ok m else .error (.invalidModel m)

/-- anthropic_llm.py `AnthropicLLM.setup`: default "claude-3-haiku-20240307",
validated against `ANTHROPIC_MODELS`. -/
def anthropic_setup (model : Option String) : Except SetupError String :=
  let m := model.getD "claude-3-haiku-20240307"
  if m ∈ ANTHROPIC_MODELS then .ok m else .error (.invalidModel m)

/-- gemini_llm.py `GeminiLLM.setup`: first require the
GOOGLE_APPLICATION_CREDENTIALS environment variable (the ambient credential
source; `credentialsPath` is its value, "" when unset), then default the
model to "gemini-1.0-pro" and validate it against `GEMINI_MODELS`.
`vertexai.init` / `GenerativeModel` are external calls, out of scope. -/
def gemini_setup (credentialsPath : String) (model : Option String) :
    Except SetupError String :=
  if credentialsPath = "" then .error .missingCredentials
  else
    let m := model.getD "gemini-1.0-pro"
    if m ∈ GEMINI_MODELS then .ok m else .error (.invalidModel m)

/-- base.py `BaseLLM.__init__` followed by `OpenAILLM.setup`: the base
constructor rejects a falsy (empty) api_key before calling setup. -/
def openai_construct (apiKey : String) (model : Option String) :
    Except SetupError String :=
  if apiKey = "" then .error .missingApiKey else openai_setup model

/-- base.py `BaseLLM.__init__` followed by `AnthropicLLM.setup`. -/
def anthropic_construct (apiKey : String) (model : Option String) :
    Except SetupError String :=
  if apiKey = "" then .error .missingApiKey else anthropic_setup model

/-- base.py `BaseLLM.__init__` followed by `GeminiLLM.setup`. -/
def gemini_construct (apiKey : String) (credentialsPath : String)
    (model : Option String) : Except SetupError String :=
  if apiKey = "" then .error .missingApiKey
  else gemini_setup credentialsPath model

/-- Observable trace of the retry loop shared by all three adapters:
the outcome (on success, the vendor value and the value the Python loop
variable `attempt` holds afterwards), how many attempts were evaluated, and
the list of `asyncio.sleep(2 ** attempt)` durations, in order. -/
structure RetryTrace (α : Type) where
  outcome : Except String (α × ℕ)
  attemptsMade : ℕ
  sleeps : List ℕ
deriving Repr

/-- The body of `for attempt in range(...)` in each adapter's
generate_response: try the call; on success break; on the caught vendor
exception re-raise if this is the last attempt, otherwise sleep `2^attempt`
and continue. `last` is `retry_attempts - 1`; the `[]` case is unreachable
from a nonempty range (Python would hit an unbound `response`). -/
def retry_go (calls : ℕ → Except String α) (last : ℕ) :
    List ℕ → RetryTrace α
  | [] => ⟨.error "UnboundLocalError", 0, []⟩
  | a :: rest =>
    match calls a with
    | .ok v => ⟨.ok (v, a), 1, []⟩
    | .error e =>
      if a = last then ⟨.error e, 1, []⟩
      else
        let t := retry_go calls last rest
        ⟨t.outcome, t.attemptsMade + 1, 2 ^ a :: t.sleeps⟩

/-- The retry loop with the configured budget:
`for attempt in range(settings.LLM.DEFAULT_PARAMETERS["retry_attempts"])`. -/
def run_with_retry (calls : ℕ → Except String α) : RetryTrace α :=
  retry_go calls (retry_attempts - 1) (List.range retry_attempts)

/-- Python `round(q, d)`: nearest multiple of `10 ^ (-d)`. -/
def roundTo (d : ℕ) (q : ℚ) : ℚ := (round (q * 10 ^ d) : ℤ) / 10 ^ d

/-- The `tokens` sub-dict of the response metadata. For OpenAI all three
fields are copied verbatim from the vendor `response.usage`; the other two
adapters compute `total_tokens` themselves. -/
structure TokenUsage where
  prompt_tokens : ℕ
  completion_tokens : ℕ
  total_tokens : ℕ
deriving Repr, DecidableEq

/-- The `costs` sub-dict (OpenAI names the first two keys
prompt_cost/completion_cost; Anthropic and Gemini name them
input_cost/output_cost — same positions, same computation shape). -/
structure CostBreakdown where
  input_cost : ℚ
  output_cost : ℚ
  total_cost : ℚ
deriving Repr, DecidableEq

/-- The `performance` sub-dict of the response metadata. -/
structure Performance where
  response_time : ℚ
  tokens_per_second : ℚ
  retry_count : ℕ
deriving Repr, DecidableEq

/-- The `metadata` dict assembled on the success path (session_info and
completion_info carry no content the verified claims depend on). -/
structure Metadata where
  model : String
  tokens : TokenUsage
  costs : CostBreakdown
  performance : Performance
deriving Repr, DecidableEq

/-- The result dict `{"response": ..., "metadata": ...}`. -/
structure GenResult where
  response : String
  metadata : Metadata
deriving Repr, DecidableEq

/-- The top-level keys of the result dict literal each adapter assembles:
exactly "response" and "metadata". -/
def result_dict_keys (_ : GenResult) : List String := ["response", "metadata"]

/-- base.py `BaseLLM.validate_response`:
`all(key in response for key in {"response", "metadata"})`. -/
def validate_response (keys : List String) : Bool :=
  ["response", "metadata"].all (fun k => keys.contains k)

/-- The distinct `raise` sites reachable from generate_response. The source
raises `LLMException` in all cases; the constructors record the branch. -/
inductive GenError where
  /-- The outer vendor-exception handler: `LLMException(f"... API error: \x7bstr(e)\x7d")`
  after the retry budget is exhausted; the payload is the original cause. -/
  | providerError (cause : String)
  /-- `LLMException("Invalid response format from ...")`. -/
  | invalidFormat
  /-- The generic `except Exception` handler (`LLMException(f"Unexpected error: ...")`);
  the payload names the Python exception that reached it. -/
  | unexpected (msg : String)
deriving Repr, DecidableEq

/-- A successful OpenAI chat-completion response: the fields of
`response` that generate_response reads. `usage` is reported by the vendor
as three independent numbers. -/
structure OpenAIResp where
  content : String
  usage : TokenUsage
  finish_reason : String
deriving Repr, DecidableEq

/-- A successful Anthropic messages response: vendor reports input and
output token counts only. -/
structure AnthropicResp where
  text : String
  input_tokens : ℕ
  output_tokens : ℕ
  stop_reason : String
deriving Repr, DecidableEq

/-- A successful Gemini response: only `response.text` is read. -/
structure GeminiResp where
  text : String
deriving Repr, DecidableEq

/-- openai_llm.py `OpenAILLM.generate_response`, success-path dataflow after
construction: retry loop, cost computation (`model_costs["input"]` raises
KeyError on the empty dict), timing metadata (`total_tokens / response_time`
raises ZeroDivisionError when the elapsed time is 0), result assembly and
`validate_response` check. -/
def openai_generate (model : String) (calls : ℕ → Except String OpenAIResp)
    (response_time : ℚ) : Except GenError GenResult :=
  match (run_with_retry calls).outcome with
  | .error e => .error (.providerError e)
  | .ok (resp, attempt) =>
    match get_model_cost "openai" model with
    | none => .error (.unexpected "KeyError")
    | some rate =>
      let prompt_cost : ℚ := (resp.usage.prompt_tokens : ℚ) / 1000 * rate.input
      let completion_cost : ℚ :=
        (resp.usage.completion_tokens : ℚ) / 1000 * rate.output
      let total_cost : ℚ := prompt_cost + completion_cost
      if response_time = 0 then .error (.unexpected "ZeroDivisionError")
      else
        let result : GenResult :=
          { response := resp.content
            metadata :=
              { model := model
                tokens := resp.usage
                costs :=
                  { input_cost := roundTo 6 prompt_cost
                    output_cost := roundTo 6 completion_cost
                    total_cost := roundTo 6 total_cost }
                performance :=
                  { response_time := roundTo 3 response_time
                    tokens_per_second :=
                      roundTo 2 ((resp.usage.total_tokens : ℚ) / response_time)
                    retry_count := attempt } } }
        if validate_response (result_dict_keys result) then .ok result
        else .error .invalidFormat

/-- anthropic_llm.py `AnthropicLLM.generate_response`: same shape; the
adapter computes `total_tokens = input_tokens + output_tokens` itself. -/
def anthropic_generate (model : String)
    (calls : ℕ → Except String AnthropicResp) (response_time : ℚ) :
    Except GenError GenResult :=
  match (run_with_retry calls).outcome with
  | .error e => .error (.providerError e)
  | .ok (resp, attempt) =>
    match get_model_cost "anthropic" model with
    | none => .error (.unexpected "KeyError")
    | some rate =>
      let input_cost : ℚ := (resp.input_tokens : ℚ) / 1000 * rate.input
      let output_cost : ℚ := (resp.output_tokens : ℚ) / 1000 * rate.output
      let total_cost : ℚ := input_cost + output_cost
      if response_time = 0 then .error (.unexpected "ZeroDivisionError")
      else
        let result : GenResult :=
          { response := resp.text
            metadata :=
              { model := model
                tokens :=
                  { prompt_tokens := resp.input_tokens
                    completion_tokens := resp.output_tokens
                    total_tokens := resp.input_tokens + resp.output_tokens }
                costs :=
                  { input_cost := roundTo 6 input_cost
                    output_cost := roundTo 6 output_cost
                    total_cost := roundTo 6 total_cost }
                performance :=
                  { response_time := roundTo 3 response_time
                    tokens_per_second :=
                      roundTo 2
                        (((resp.input_tokens + resp.output_tokens : ℕ) : ℚ) /
                          response_time)
                    retry_count := attempt } } }
        if validate_response (result_dict_keys result) then .ok result
        else .error .invalidFormat

/-- gemini_llm.py `GeminiLLM.generate_response`: token counts are estimated
as `len(text) // 4`; the cost lookup uses provider key "gemini", which has
no entry in `MODEL_COSTS`, so `model_costs["input"]` raises KeyError. -/
def gemini_generate (model : String) (calls : ℕ → Except String GeminiResp)
    (prompt : String) (response_time : ℚ) : Except GenError GenResult :=
  match (run_with_retry calls).outcome with
  | .error e => .error (.providerError e)
  | .ok (resp, attempt) =>
    let estimated_prompt_tokens : ℕ := prompt.length / 4
    let estimated_completion_tokens : ℕ := resp.text.length / 4
    match get_model_cost "gemini" model with
    | none => .error (.unexpected "KeyError")
    | some rate =>
      let input_cost : ℚ := (estimated_prompt_tokens : ℚ) / 1000 * rate.input
      let output_cost : ℚ :=
        (estimated_completion_tokens : ℚ) / 1000 * rate.output
      let total_cost : ℚ := input_cost + output_cost
      if response_time = 0 then .error (.unexpected "ZeroDivisionError")
      else
        let result : GenResult :=
          { response := resp.text
            metadata :=
              { model := model
                tokens :=
                  { prompt_tokens := estimated_prompt_tokens
                    completion_tokens := estimated_completion_tokens
                    total_tokens :=
                      estimated_prompt_tokens + estimated_completion_tokens }
                costs :=
                  { input_cost := roundTo 6 input_cost
                    output_cost := roundTo 6 output_cost
                    total_cost := roundTo 6 total_cost }
                performance :=
                  { response_time := roundTo 3 response_time
                    tokens_per_second :=
                      roundTo 2
                        (((estimated_prompt_tokens +
                            estimated_completion_tokens : ℕ) : ℚ) /
                          response_time)
                    retry_count := attempt } } }
        if validate_response (result_dict_keys result) then .ok result
        else .error .invalidFormat

/-- The per-instance cumulative counters initialised in base.py
`BaseLLM.__init__` and updated by `log_interaction`. -/
structure SessionMetrics where
  total_requests : ℕ
  total_tokens : ℕ
  total_cost : ℚ
deriving Repr, DecidableEq

/-- The counters at construction time: all zero. -/
def init_session : SessionMetrics := ⟨0, 0, 0⟩

/-- base.py `BaseLLM.log_interaction`, the metric-update step: increment the
request count and add this call's `metadata.tokens.total_tokens` and
`metadata.costs.total_cost`. -/
def log_interaction (s : SessionMetrics) (r : GenResult) : SessionMetrics :=
  { total_requests := s.total_requests + 1
    total_tokens := s.total_tokens + r.metadata.tokens.total_tokens
    total_cost := s.total_cost + r.metadata.costs.total_cost }

/-- app.py `store_llm_call`, the buffer update: append the entry, then if
the length exceeds 10 pop the element at index 0. Entries are opaque. -/
def store_llm_call {α : Type} (hist : List α) (e : α) : List α :=
  let appended := hist ++ [e]
  if 10 < appended.length then appended.drop 1 else appended

/-- Decides whether a generate outcome is the "Invalid response format"
failure. -/
def is_invalid_format : Except GenError GenResult → Bool
  | .error .invalidFormat => true
  | _ => false

/-- Decides whether a construction outcome is one of the two
credential-validation failures (as opposed to success or a model error). -/
def is_credential_error : Except SetupError String → Bool
  | .error .missingApiKey => true
  | .error .missingCredentials => true
  | _ => false

/-! ## Helper lemmas -/

/-- Three means of reading off the retry loop trace when every attempt fails
with the same vendor exception: last attempt re-raises, sleeps 2^0 and 2^1
were taken after the first two failures. -/
theorem run_with_retry_all_fail {α : Type} (calls : ℕ → Except String α)
    (c : String) (h : ∀ i, calls i = .error c) :
    run_with_retry calls = ⟨.error c, 3, [1, 2]⟩ := by
  have e : List.range retry_attempts = [0, 1, 2] := rfl
  simp [run_with_retry, e, retry_go, h 0, h 1, h 2, retry_attempts]

/-- Trace of the retry loop when the first two attempts fail and the third
succeeds: the loop breaks at attempt 2 after sleeping 2^0 and 2^1. -/
theorem run_with_retry_fail_fail_ok {α : Type} (calls : ℕ → Except String α)
    (c0 c1 : String) (v : α) (h0 : calls 0 = .error c0)
    (h1 : calls 1 = .error c1) (h2 : calls 2 = .ok v) :
    run_with_retry calls = ⟨.ok (v, 2), 3, [1, 2]⟩ := by
  have e : List.range retry_attempts = [0, 1, 2] := rfl
  simp [run_with_retry, e, retry_go, h0, h1, h2, retry_attempts]

/-- If the retry loop ends with value `v` at attempt `i`, that attempt's
vendor call returned `v`. -/
theorem retry_go_ok_inv {α : Type} (calls : ℕ → Except String α)
    (last : ℕ) (l : List ℕ) (v : α) (i : ℕ)
    (h : (retry_go calls last l).outcome = .ok (v, i)) : calls i = .ok v := by
  induction l with
  | nil => simp [retry_go] at h
  | cons a rest ih =>
    unfold retry_go at h
    cases hc : calls a with
    | ok w =>
      rw [hc] at h
      simp at h
      obtain ⟨hw, hi⟩ := h
      rw [← hi, hc, hw]
    | error e =>
      rw [hc] at h
      by_cases ha : a = last
      · simp [ha] at h
      · simp [ha] at h
        exact ih h

/-- Specialisation of `retry_go_ok_inv` to the configured loop. -/
theorem run_with_retry_ok_inv {α : Type} (calls : ℕ → Except String α)
    (v : α) (i : ℕ) (h : (run_with_retry calls).outcome = .ok (v, i)) :
    calls i = .ok v :=
  retry_go_ok_inv calls (retry_attempts - 1) (List.range retry_attempts) v i h

/-- Rounding each of two summands and their sum to 6 decimal places keeps
the rounded sum within one unit in the sixth decimal place of the sum of
the rounded summands. -/
theorem roundTo6_add_close (a b : ℚ) :
    |roundTo 6 (a + b) - (roundTo 6 a + roundTo 6 b)| ≤ 1 / 1000000 := by
  unfold roundTo
  set S : ℤ := round ((a + b) * 10 ^ 6) with hS
  set A : ℤ := round (a * 10 ^ 6) with hA
  set B : ℤ := round (b * 10 ^ 6) with hB
  have habsS : |(a + b) * 10 ^ 6 - S| ≤ 1 / 2 := abs_sub_round _
  have habsA : |a * 10 ^ 6 - A| ≤ 1 / 2 := abs_sub_round _
  have habsB : |b * 10 ^ 6 - B| ≤ 1 / 2 := abs_sub_round _
  have key : |((S - A - B : ℤ) : ℚ)| ≤ 3 / 2 := by
    have hmix : ((S - A - B : ℤ) : ℚ) =
        -((a + b) * 10 ^ 6 - S) + (a * 10 ^ 6 - A) + (b * 10 ^ 6 - B) := by
      push_cast
      ring
    calc |((S - A - B : ℤ) : ℚ)|
        ≤ |-((a + b) * 10 ^ 6 - (S : ℚ))| + |a * 10 ^ 6 - A| +
            |b * 10 ^ 6 - B| := by
          rw [hmix]
          exact (abs_add_three _ _ _)
      _ ≤ 1 / 2 + 1 / 2 + 1 / 2 := by
          rw [abs_neg]
          gcongr
      _ = 3 / 2 := by norm_num
  have hint : |S - A - B| ≤ 1 := by
    have h2 : ((|S - A - B| : ℤ) : ℚ) < 2 := by
      rw [Int.cast_abs]
      exact lt_of_le_of_lt key (by norm_num)
    have h3 : |S - A - B| < 2 := by exact_mod_cast h2
    omega
  have hrw : (S : ℚ) / 10 ^ 6 - ((A : ℚ) / 10 ^ 6 + (B : ℚ) / 10 ^ 6) =
      ((S - A - B : ℤ) : ℚ) / 10 ^ 6 := by
    push_cast
    ring
  rw [hrw, abs_div, abs_of_pos (by positivity : (0 : ℚ) < 10 ^ 6)]
  rw [show (1 : ℚ) / 1000000 = 1 / 10 ^ 6 by norm_num]
  rw [div_le_div_iff_of_pos_right (by positivity : (0 : ℚ) < 10 ^ 6)]
  rw [← Int.cast_abs]
  exact_mod_cast hint

/-- The "gemini" provider key is absent from the cost table, whatever the
model. -/
theorem get_model_cost_gemini (m : String) :
    get_model_cost "gemini" m = none := by
  unfold get_model_cost
  rfl

/-- One buffer update cannot grow the history past 10 entries. -/
theorem store_llm_call_length_le {α : Type} (hist : List α) (e : α)
    (h : hist.length ≤ 10) : (store_llm_call hist e).length ≤ 10 := by
  simp only [store_llm_call]
  split <;> simp_all

/-- Neither branch of a setup's model check is a credential failure. -/
theorem is_credential_error_openai_setup (m : Option String) :
    is_credential_error (openai_setup m) = false := by
  simp only [openai_setup]
  split <;> rfl

/-- Neither branch of a setup's model check is a credential failure. -/
theorem is_credential_error_anthropic_setup (m : Option String) :
    is_credential_error (anthropic_setup m) = false := by
  simp only [anthropic_setup]
  split <;> rfl

/-- Gemini's setup fails credential validation exactly when the ambient
credential env var is unset. -/
theorem is_credential_error_gemini_setup (creds : String) (m : Option String) :
    is_credential_error (gemini_setup creds m) = (creds == "") := by
  simp only [gemini_setup]
  by_cases hc : creds = ""
  · simp [hc, is_credential_error]
  · rw [if_neg hc, beq_eq_false_iff_ne.mpr hc]
    split <;> rfl

/-! ## Claim theorems -/

/-- C1: the claim says a missing cost-rate entry for a (provider, model)
pair yields `total_cost == 0` without an error. The code instead indexes the
empty rate dict (`model_costs["input"]`), raising KeyError, which the
generic handler re-raises as `LLMException`. Evaluated at the failing input:
provider "gemini" (absent from `MODEL_COSTS`), its valid model "gemini-1",
a vendor call that succeeds immediately, elapsed time 1s. -/
theorem c1_missing_cost_entry_raises :
    get_model_cost "gemini" "gemini-1" = none ∧
    gemini_generate "gemini-1" (fun _ => .ok ⟨"Hello from Gemini"⟩)
        "hello" 1 = .error (.unexpected "KeyError") :=
  ⟨get_model_cost_gemini "gemini-1", rfl⟩

/-- C2: the claim says constructing any adapter with no model selects that
provider's default and succeeds. For Gemini the code defaults to
"gemini-1.0-pro" and then rejects it because it is not in
`GEMINI_MODELS = ["gemini-1", "gemini-2"]`; construction raises. OpenAI and
Anthropic defaults do succeed, isolating the Gemini slip. -/
theorem c2_gemini_default_model_rejected :
    gemini_construct "test-key" "/tmp/creds.json" none =
      .error (.invalidModel "gemini-1.0-pro") ∧
    openai_construct "test-key" none = .ok "gpt-3.5-turbo" ∧
    anthropic_construct "test-key" none = .ok "claude-3-haiku-20240307" :=
  ⟨rfl, rfl, rfl⟩

/-- C5: the claim (and spec section 9) requires `tokens_per_second` to be
explicitly defined when `response_time == 0`; the code divides unguarded.
Evaluated at the failing input — a vendor call that succeeds with elapsed
time exactly 0 — `generate` raises (ZeroDivisionError re-raised as
`LLMException`) instead of returning a defined value, for both the OpenAI
and the Anthropic adapter. -/
theorem c5_zero_response_time_unguarded :
    openai_generate "gpt-4" (fun _ => .ok ⟨"hi", ⟨10, 5, 15⟩, "stop"⟩) 0 =
      .error (.unexpected "ZeroDivisionError") ∧
    anthropic_generate "claude-3-opus-latest"
        (fun _ => .ok ⟨"hi", 10, 5, "end_turn"⟩) 0 =
      .error (.unexpected "ZeroDivisionError") :=
  ⟨rfl, rfl⟩

/-- C8: starting from the empty buffer, the history length never exceeds 10;
and appending to a full (10-entry) buffer evicts exactly the entry at index
0, keeping the remaining entries in their original relative order followed
by the new entry (FIFO). -/
theorem c8_history_buffer_fifo :
    (∀ (α : Type) (entries : List α),
        (entries.foldl store_llm_call ([] : List α)).length ≤ 10) ∧
    (∀ (α : Type) (hist : List α) (e : α), hist.length = 10 →
        store_llm_call hist e = hist.drop 1 ++ [e]) := by
  constructor
  · intro α entries
    have general : ∀ (l acc : List α), acc.length ≤ 10 →
        (l.foldl store_llm_call acc).length ≤ 10 := by
      intro l
      induction l with
      | nil => intro acc hacc; simpa using hacc
      | cons x xs ih =>
        intro acc hacc
        exact ih _ (store_llm_call_length_le acc x hacc)
    exact general entries [] (by simp)
  · intro α hist e hlen
    simp only [store_llm_call]
    cases hist with
    | nil => simp at hlen
    | cons a t =>
      have hgt : 10 < (a :: t ++ [e]).length := by
        simp only [List.length_cons, List.length_append] at hlen ⊢
        omega
      rw [if_pos hgt]
      simp

/-- Witness for C8: a concrete full buffer of 10 entries; appending entry 10
drops entry 0 and keeps 1..9 in order. -/
theorem c8_history_buffer_fifo_witness :
    ([0, 1, 2, 3, 4, 5, 6, 7, 8, 9] : List ℕ).length = 10 ∧
    store_llm_call ([0, 1, 2, 3, 4, 5, 6, 7, 8, 9] : List ℕ) 10 =
      [1, 2, 3, 4, 5, 6, 7, 8, 9, 10] := by
  refine ⟨by decide, ?_⟩
  rw [c8_history_buffer_fifo.2 ℕ [0, 1, 2, 3, 4, 5, 6, 7, 8, 9] 10 (by decide)]
  rfl

/-- C9 (amended): construction fails credential validation if and only if
the api_key is empty — for every provider — or, additionally for Gemini, the
ambient GOOGLE_APPLICATION_CREDENTIALS env var is unset. An ambient
credential source never substitutes for the api_key: base.py rejects an
empty api_key unconditionally, before any network access. -/
theorem c9_credential_check_characterisation :
    (∀ (k : String) (m : Option String),
        is_credential_error (openai_construct k m) = (k == "")) ∧
    (∀ (k : String) (m : Option String),
        is_credential_error (anthropic_construct k m) = (k == "")) ∧
    (∀ (k creds : String) (m : Option String),
        is_credential_error (gemini_construct k creds m) =
          (k == "" || creds == "")) := by
  refine ⟨?_, ?_, ?_⟩
  · intro k m
    simp only [openai_construct]
    by_cases hk : k = ""
    · simp [hk, is_credential_error]
    · rw [if_neg hk, beq_eq_false_iff_ne.mpr hk]
      exact is_credential_error_openai_setup m
  · intro k m
    simp only [anthropic_construct]
    by_cases hk : k = ""
    · simp [hk, is_credential_error]
    · rw [if_neg hk, beq_eq_false_iff_ne.mpr hk]
      exact is_credential_error_anthropic_setup m
  · intro k creds m
    simp only [gemini_construct]
    by_cases hk : k = ""
    · simp [hk, is_credential_error]
    · rw [if_neg hk, beq_eq_false_iff_ne.mpr hk, Bool.false_or]
      exact is_credential_error_gemini_setup creds m

/-- C9 counterexample: with the ambient credential source present but no
explicit API key, Gemini construction still raises the api-key error,
refuting "succeeds past credential validation". -/
theorem c9_ambient_only_still_raises :
    gemini_construct "" "/home/user/creds.json" (some "gemini-1") =
      .error .missingApiKey := rfl

/-- C10: every assembled result dict has exactly the top-level keys
"response" and "metadata", so `validate_response` accepts it and no
`generate` ever returns the "Invalid response format" failure. -/
theorem c10_invalid_format_unreachable :
    (∀ r : GenResult, validate_response (result_dict_keys r) = true) ∧
    (∀ (m : String) (calls : ℕ → Except String OpenAIResp) (rt : ℚ),
        is_invalid_format (openai_generate m calls rt) = false) ∧
    (∀ (m : String) (calls : ℕ → Except String AnthropicResp) (rt : ℚ),
        is_invalid_format (anthropic_generate m calls rt) = false) ∧
    (∀ (m p : String) (calls : ℕ → Except String GeminiResp) (rt : ℚ),
        is_invalid_format (gemini_generate m calls p rt) = false) := by
  refine ⟨fun r => rfl, ?_, ?_, ?_⟩
  · intro m calls rt
    simp only [openai_generate]
    split
    · rfl
    · split
      · rfl
      · split <;> rfl
  · intro m calls rt
    simp only [anthropic_generate]
    split
    · rfl
    · split
      · rfl
      · split <;> rfl
  · intro m p calls rt
    simp only [gemini_generate]
    split
    · rfl
    · split
      · rfl
      · split <;> rfl


/-- Success-path normal form of `openai_generate`: with a successful retry
outcome, a present cost rate and nonzero elapsed time, the assembled result
is returned. -/
theorem openai_generate_ok (m : String) (calls : ℕ → Except String OpenAIResp)
    (rt : ℚ) (resp : OpenAIResp) (attempt : ℕ) (rate : CostRate)
    (ho : (run_with_retry calls).outcome = .ok (resp, attempt))
    (hc : get_model_cost "openai" m = some rate) (hrt : rt ≠ 0) :
    openai_generate m calls rt = .ok
      { response := resp.content
        metadata :=
          { model := m
            tokens := resp.usage
            costs :=
              { input_cost :=
                  roundTo 6 ((resp.usage.prompt_tokens : ℚ) / 1000 * rate.input)
                output_cost :=
                  roundTo 6
                    ((resp.usage.completion_tokens : ℚ) / 1000 * rate.output)
                total_cost :=
                  roundTo 6
                    ((resp.usage.prompt_tokens : ℚ) / 1000 * rate.input +
                      (resp.usage.completion_tokens : ℚ) / 1000 * rate.output) }
            performance :=
              { response_time := roundTo 3 rt
                tokens_per_second :=
                  roundTo 2 ((resp.usage.total_tokens : ℚ) / rt)
                retry_count := attempt } } } := by
  simp only [openai_generate, ho, hc]
  rw [if_neg hrt]
  rfl

/-- Success-path normal form of `anthropic_generate`. -/
theorem anthropic_generate_ok (m : String)
    (calls : ℕ → Except String AnthropicResp) (rt : ℚ) (resp : AnthropicResp)
    (attempt : ℕ) (rate : CostRate)
    (ho : (run_with_retry calls).outcome = .ok (resp, attempt))
    (hc : get_model_cost "anthropic" m = some rate) (hrt : rt ≠ 0) :
    anthropic_generate m calls rt = .ok
      { response := resp.text
        metadata :=
          { model := m
            tokens :=
              { prompt_tokens := resp.input_tokens
                completion_tokens := resp.output_tokens
                total_tokens := resp.input_tokens + resp.output_tokens }
            costs :=
              { input_cost :=
                  roundTo 6 ((resp.input_tokens : ℚ) / 1000 * rate.input)
                output_cost :=
                  roundTo 6 ((resp.output_tokens : ℚ) / 1000 * rate.output)
                total_cost :=
                  roundTo 6
                    ((resp.input_tokens : ℚ) / 1000 * rate.input +
                      (resp.output_tokens : ℚ) / 1000 * rate.output) }
            performance :=
              { response_time := roundTo 3 rt
                tokens_per_second :=
                  roundTo 2
                    (((resp.input_tokens + resp.output_tokens : ℕ) : ℚ) / rt)
                retry_count := attempt } } } := by
  simp only [anthropic_generate, ho, hc]
  rw [if_neg hrt]
  rfl

/-- C3: when every attempt of the vendor call fails (with the retried
exception class), each adapter makes exactly `retry_attempts = 3` attempts,
sleeps 2^0 then 2^1 time units between consecutive attempts, and raises the
provider failure carrying the original cause; no result is returned. -/
theorem c3_retry_exhaustion
    (mO mA mG prompt : String) (rt : ℚ) (c : String)
    (callsO : ℕ → Except String OpenAIResp)
    (callsA : ℕ → Except String AnthropicResp)
    (callsG : ℕ → Except String GeminiResp)
    (hO : ∀ i, callsO i = .error c) (hA : ∀ i, callsA i = .error c)
    (hG : ∀ i, callsG i = .error c) :
    retry_attempts = 3 ∧
    (openai_generate mO callsO rt = .error (.providerError c) ∧
      (run_with_retry callsO).attemptsMade = 3 ∧
      (run_with_retry callsO).sleeps = [2 ^ 0, 2 ^ 1]) ∧
    (anthropic_generate mA callsA rt = .error (.providerError c) ∧
      (run_with_retry callsA).attemptsMade = 3 ∧
      (run_with_retry callsA).sleeps = [2 ^ 0, 2 ^ 1]) ∧
    (gemini_generate mG callsG prompt rt = .error (.providerError c) ∧
      (run_with_retry callsG).attemptsMade = 3 ∧
      (run_with_retry callsG).sleeps = [2 ^ 0, 2 ^ 1]) := by
  have hOr := run_with_retry_all_fail callsO c hO
  have hAr := run_with_retry_all_fail callsA c hA
  have hGr := run_with_retry_all_fail callsG c hG
  refine ⟨rfl, ⟨?_, ?_, ?_⟩, ⟨?_, ?_, ?_⟩, ⟨?_, ?_, ?_⟩⟩
  · simp only [openai_generate, hOr]
  · rw [hOr]
  · rw [hOr]; norm_num
  · simp only [anthropic_generate, hAr]
  · rw [hAr]
  · rw [hAr]; norm_num
  · simp only [gemini_generate, hGr]
  · rw [hGr]
  · rw [hGr]; norm_num

/-- Witness for C3: a vendor call failing with "boom" on every attempt
(OpenAI adapter instantiation of the theorem). -/
theorem c3_retry_exhaustion_witness :
    openai_generate "gpt-4" (fun _ => .error "boom") 1 =
      .error (.providerError "boom") ∧
    (run_with_retry
        (fun _ => (.error "boom" : Except String OpenAIResp))).attemptsMade =
      3 ∧
    (run_with_retry
        (fun _ => (.error "boom" : Except String OpenAIResp))).sleeps =
      [2 ^ 0, 2 ^ 1] := by
  have h := c3_retry_exhaustion "gpt-4" "claude-3-opus-latest" "gemini-1"
    "hi" 1 "boom" (fun _ => .error "boom") (fun _ => .error "boom")
    (fun _ => .error "boom") (fun _ => rfl) (fun _ => rfl) (fun _ => rfl)
  exact h.2.1

/-- C4 counterexample: for the Gemini adapter, a vendor call that fails
twice and then succeeds still does not make `generate` return the
successful result — the cost lookup has no "gemini" entry, so it raises.
This refutes the claim's universal quantification over adapters. -/
theorem c4_gemini_raises_after_recovery :
    gemini_generate "gemini-1"
        (fun i => if i < 2 then .error "transient" else .ok ⟨"recovered"⟩)
        "hello" 1 = .error (.unexpected "KeyError") := rfl

/-- C4 (amended): for the OpenAI and Anthropic adapters — whose validated
models have cost-rate entries — a vendor call failing exactly twice then
succeeding makes `generate` return the successful result with
`retry_count == 2`, after total backoff of at least 2^0 + 2^1 time units
(provided the elapsed time is nonzero, see C5). -/
theorem c4_two_failures_then_success
    (mO mA : String) (rt : ℚ) (cO0 cO1 cA0 cA1 : String)
    (callsO : ℕ → Except String OpenAIResp)
    (callsA : ℕ → Except String AnthropicResp)
    (respO : OpenAIResp) (respA : AnthropicResp) (rateO rateA : CostRate)
    (hrt : rt ≠ 0)
    (hO0 : callsO 0 = .error cO0) (hO1 : callsO 1 = .error cO1)
    (hO2 : callsO 2 = .ok respO)
    (hcO : get_model_cost "openai" mO = some rateO)
    (hA0 : callsA 0 = .error cA0) (hA1 : callsA 1 = .error cA1)
    (hA2 : callsA 2 = .ok respA)
    (hcA : get_model_cost "anthropic" mA = some rateA) :
    ((openai_generate mO callsO rt).toOption.map
        (fun r => r.metadata.performance.retry_count)) = some 2 ∧
    2 ^ 0 + 2 ^ 1 ≤ (run_with_retry callsO).sleeps.sum ∧
    ((anthropic_generate mA callsA rt).toOption.map
        (fun r => r.metadata.performance.retry_count)) = some 2 ∧
    2 ^ 0 + 2 ^ 1 ≤ (run_with_retry callsA).sleeps.sum := by
  have hOr := run_with_retry_fail_fail_ok callsO cO0 cO1 respO hO0 hO1 hO2
  have hAr := run_with_retry_fail_fail_ok callsA cA0 cA1 respA hA0 hA1 hA2
  have hOo : (run_with_retry callsO).outcome = .ok (respO, 2) := by rw [hOr]
  have hAo : (run_with_retry callsA).outcome = .ok (respA, 2) := by rw [hAr]
  refine ⟨?_, ?_, ?_, ?_⟩
  · rw [openai_generate_ok mO callsO rt respO 2 rateO hOo hcO hrt]
    rfl
  · rw [hOr]
    norm_num [List.sum_cons, List.sum_nil]
  · rw [anthropic_generate_ok mA callsA rt respA 2 rateA hAo hcA hrt]
    rfl
  · rw [hAr]
    norm_num [List.sum_cons, List.sum_nil]

/-- Witness for C4: concrete calls failing twice with "transient" then
succeeding, model gpt-4 / claude-3-opus-latest, elapsed time 1s. -/
theorem c4_two_failures_then_success_witness :
    ((openai_generate "gpt-4"
          (fun i => if i < 2 then .error "transient"
            else .ok ⟨"hi", ⟨10, 5, 15⟩, "stop"⟩) 1).toOption.map
        (fun r => r.metadata.performance.retry_count)) = some 2 ∧
    2 ^ 0 + 2 ^ 1 ≤
      (run_with_retry
          (fun i => if i < 2 then (.error "transient" : Except String OpenAIResp)
            else .ok ⟨"hi", ⟨10, 5, 15⟩, "stop"⟩)).sleeps.sum := by
  have h := c4_two_failures_then_success "gpt-4" "claude-3-opus-latest" 1
    "transient" "transient" "transient" "transient"
    (fun i => if i < 2 then .error "transient"
      else .ok ⟨"hi", ⟨10, 5, 15⟩, "stop"⟩)
    (fun i => if i < 2 then .error "transient"
      else .ok ⟨"hi", 10, 5, "end_turn"⟩)
    ⟨"hi", ⟨10, 5, 15⟩, "stop"⟩ ⟨"hi", 10, 5, "end_turn"⟩
    ⟨3/100, 6/100⟩ ⟨15/1000, 75/1000⟩
    (by norm_num) rfl rfl rfl rfl rfl rfl rfl rfl
  exact ⟨h.1, h.2.1⟩

/-- C6 counterexample: the OpenAI adapter copies the vendor-reported
`usage` fields verbatim, so a vendor response reporting
total_tokens = 5 with prompt_tokens = completion_tokens = 1 produces
metadata violating `total_tokens == prompt_tokens + completion_tokens`. -/
theorem c6_openai_copies_vendor_total :
    ((openai_generate "gpt-4" (fun _ => Except.ok ⟨"hi", ⟨1, 1, 5⟩, "stop"⟩)
          1).toOption.map
        (fun r => decide (r.metadata.tokens.total_tokens =
          r.metadata.tokens.prompt_tokens +
            r.metadata.tokens.completion_tokens))) = some false := rfl

/-- C6 (amended): on every successful generation, the Anthropic and Gemini
adapters satisfy `total_tokens == prompt_tokens + completion_tokens` by
construction, and OpenAI does whenever the vendor-reported usage satisfies
it (the adapter copies the three fields verbatim); for all adapters the
rounded `total_cost` is within 10^-6 of `input_cost + output_cost`. -/
theorem c6_token_and_cost_identities :
    (∀ (m : String) (calls : ℕ → Except String OpenAIResp) (rt : ℚ)
        (r : GenResult),
        (∀ i u, calls i = .ok u →
          u.usage.total_tokens =
            u.usage.prompt_tokens + u.usage.completion_tokens) →
        openai_generate m calls rt = .ok r →
        r.metadata.tokens.total_tokens =
            r.metadata.tokens.prompt_tokens +
              r.metadata.tokens.completion_tokens ∧
          |r.metadata.costs.total_cost -
              (r.metadata.costs.input_cost + r.metadata.costs.output_cost)| ≤
            1 / 1000000) ∧
    (∀ (m : String) (calls : ℕ → Except String AnthropicResp) (rt : ℚ)
        (r : GenResult),
        anthropic_generate m calls rt = .ok r →
        r.metadata.tokens.total_tokens =
            r.metadata.tokens.prompt_tokens +
              r.metadata.tokens.completion_tokens ∧
          |r.metadata.costs.total_cost -
              (r.metadata.costs.input_cost + r.metadata.costs.output_cost)| ≤
            1 / 1000000) ∧
    (∀ (m p : String) (calls : ℕ → Except String GeminiResp) (rt : ℚ)
        (r : GenResult),
        gemini_generate m calls p rt = .ok r →
        r.metadata.tokens.total_tokens =
            r.metadata.tokens.prompt_tokens +
              r.metadata.tokens.completion_tokens ∧
          |r.metadata.costs.total_cost -
              (r.metadata.costs.input_cost + r.metadata.costs.output_cost)| ≤
            1 / 1000000) := by
  refine ⟨?_, ?_, ?_⟩
  · intro m calls rt r hwf hok
    rcases ho : (run_with_retry calls).outcome with e | pa
    · have herr : openai_generate m calls rt = .error (.providerError e) := by
        simp only [openai_generate, ho]
      rw [herr] at hok
      exact absurd hok (by simp)
    · obtain ⟨resp, attempt⟩ := pa
      rcases hc : get_model_cost "openai" m with _ | rate
      · have herr : openai_generate m calls rt =
            .error (.unexpected "KeyError") := by
          simp only [openai_generate, ho, hc]
        rw [herr] at hok
        exact absurd hok (by simp)
      · by_cases h0 : rt = 0
        · have herr : openai_generate m calls rt =
              .error (.unexpected "ZeroDivisionError") := by
            simp only [openai_generate, ho, hc]
            rw [if_pos h0]
          rw [herr] at hok
          exact absurd hok (by simp)
        · rw [openai_generate_ok m calls rt resp attempt rate ho hc h0] at hok
          injection hok with hr
          subst hr
          constructor
          · exact hwf attempt resp (run_with_retry_ok_inv calls resp attempt ho)
          · exact roundTo6_add_close _ _
  · intro m calls rt r hok
    rcases ho : (run_with_retry calls).outcome with e | pa
    · have herr : anthropic_generate m calls rt =
          .error (.providerError e) := by
        simp only [anthropic_generate, ho]
      rw [herr] at hok
      exact absurd hok (by simp)
    · obtain ⟨resp, attempt⟩ := pa
      rcases hc : get_model_cost "anthropic" m with _ | rate
      · have herr : anthropic_generate m calls rt =
            .error (.unexpected "KeyError") := by
          simp only [anthropic_generate, ho, hc]
        rw [herr] at hok
        exact absurd hok (by simp)
      · by_cases h0 : rt = 0
        · have herr : anthropic_generate m calls rt =
              .error (.unexpected "ZeroDivisionError") := by
            simp only [anthropic_generate, ho, hc]
            rw [if_pos h0]
          rw [herr] at hok
          exact absurd hok (by simp)
        · rw [anthropic_generate_ok m calls rt resp attempt rate ho hc h0]
            at hok
          injection hok with hr
          subst hr
          exact ⟨rfl, roundTo6_add_close _ _⟩
  · intro m p calls rt r hok
    rcases ho : (run_with_retry calls).outcome with e | pa
    · have herr : gemini_generate m calls p rt =
          .error (.providerError e) := by
        simp only [gemini_generate, ho]
      rw [herr] at hok
      exact absurd hok (by simp)
    · obtain ⟨resp, attempt⟩ := pa
      have herr : gemini_generate m calls p rt =
          .error (.unexpected "KeyError") := by
        simp only [gemini_generate, ho, get_model_cost_gemini]
      rw [herr] at hok
      exact absurd hok (by simp)

/-- The concrete result the Anthropic adapter assembles for a 10-in/5-out
response on claude-3-opus-latest with 1s elapsed: used to witness C6. -/
def c6_example_result : GenResult :=
  ⟨"hi", ⟨"claude-3-opus-latest", ⟨10, 5, 15⟩,
    ⟨3/20000, 3/8000, 21/40000⟩, ⟨1, 15, 0⟩⟩⟩

/-- Witness for C6: the concrete Anthropic generation above satisfies both
identities. -/
theorem c6_token_and_cost_identities_witness :
    anthropic_generate "claude-3-opus-latest"
        (fun _ => .ok ⟨"hi", 10, 5, "end_turn"⟩) 1 = .ok c6_example_result ∧
    c6_example_result.metadata.tokens.total_tokens =
      c6_example_result.metadata.tokens.prompt_tokens +
        c6_example_result.metadata.tokens.completion_tokens ∧
    |c6_example_result.metadata.costs.total_cost -
        (c6_example_result.metadata.costs.input_cost +
          c6_example_result.metadata.costs.output_cost)| ≤ 1 / 1000000 := by
  have ho : (run_with_retry
      (fun _ => (.ok ⟨"hi", 10, 5, "end_turn"⟩ :
        Except String AnthropicResp))).outcome =
      .ok (⟨"hi", 10, 5, "end_turn"⟩, 0) := rfl
  have hgen : anthropic_generate "claude-3-opus-latest"
      (fun _ => .ok ⟨"hi", 10, 5, "end_turn"⟩) 1 = .ok c6_example_result := by
    rw [anthropic_generate_ok "claude-3-opus-latest" _ 1
      ⟨"hi", 10, 5, "end_turn"⟩ 0 ⟨15/1000, 75/1000⟩ ho rfl (by norm_num)]
    simp only [c6_example_result]
    norm_num [roundTo, round_eq]
  have h := c6_token_and_cost_identities.2.1 "claude-3-opus-latest"
    (fun _ => .ok ⟨"hi", 10, 5, "end_turn"⟩) 1 c6_example_result hgen
  exact ⟨hgen, h.1, h.2⟩

/-- Folding `log_interaction` accumulates exactly the length, token sum and
cost sum on top of the starting counters. -/
theorem log_interaction_foldl (rs : List GenResult) (s : SessionMetrics) :
    (rs.foldl log_interaction s).total_requests =
        s.total_requests + rs.length ∧
    (rs.foldl log_interaction s).total_tokens =
        s.total_tokens +
          (rs.map (fun r => r.metadata.tokens.total_tokens)).sum ∧
    (rs.foldl log_interaction s).total_cost =
        s.total_cost +
          (rs.map (fun r => r.metadata.costs.total_cost)).sum := by
  induction rs generalizing s with
  | nil => simp
  | cons r rest ih =>
    simp only [List.foldl_cons, List.map_cons, List.sum_cons,
      List.length_cons]
    obtain ⟨h1, h2, h3⟩ := ih (log_interaction s r)
    refine ⟨?_, ?_, ?_⟩
    · rw [h1]
      simp only [log_interaction]
      omega
    · rw [h2]
      simp only [log_interaction]
      omega
    · rw [h3]
      simp only [log_interaction]
      ring

/-- C7: one `log_interaction` step never decreases any counter (the token
increment is a natural number and the cost increment of a successful call is
non-negative), and after folding a sequence of successful results starting
from the zero counters of `BaseLLM.__init__`, `total_requests` equals the
number of calls, `total_tokens` the sum of per-call `total_tokens`, and
`total_cost` the sum of per-call `total_cost`. -/
theorem c7_session_counters :
    (∀ (s : SessionMetrics) (r : GenResult),
        0 ≤ r.metadata.costs.total_cost →
        s.total_requests ≤ (log_interaction s r).total_requests ∧
        s.total_tokens ≤ (log_interaction s r).total_tokens ∧
        s.total_cost ≤ (log_interaction s r).total_cost) ∧
    (∀ rs : List GenResult,
        (rs.foldl log_interaction init_session).total_requests = rs.length ∧
        (rs.foldl log_interaction init_session).total_tokens =
          (rs.map (fun r => r.metadata.tokens.total_tokens)).sum ∧
        (rs.foldl log_interaction init_session).total_cost =
          (rs.map (fun r => r.metadata.costs.total_cost)).sum) := by
  constructor
  · intro s r hc
    refine ⟨?_, ?_, ?_⟩
    · simp [log_interaction]
    · simp [log_interaction]
    · simp only [log_interaction]
      linarith
  · intro rs
    obtain ⟨h1, h2, h3⟩ := log_interaction_foldl rs init_session
    refine ⟨?_, ?_, ?_⟩
    · simpa [init_session] using h1
    · simpa [init_session] using h2
    · simpa [init_session] using h3

/-- A concrete successful result (cost 1/2) used to witness C7. -/
def c7_example_result : GenResult :=
  ⟨"ok", ⟨"gpt-4", ⟨3, 4, 7⟩, ⟨1/4, 1/4, 1/2⟩, ⟨1, 7, 0⟩⟩⟩

/-- Witness for C7: one step from counters (1, 2, 3) with the concrete
result above does not decrease any counter. -/
theorem c7_session_counters_witness :
    (0 : ℚ) ≤ c7_example_result.metadata.costs.total_cost ∧
    (⟨1, 2, 3⟩ : SessionMetrics).total_requests ≤
      (log_interaction ⟨1, 2, 3⟩ c7_example_result).total_requests ∧
    (⟨1, 2, 3⟩ : SessionMetrics).total_tokens ≤
      (log_interaction ⟨1, 2, 3⟩ c7_example_result).total_tokens ∧
    (⟨1, 2, 3⟩ : SessionMetrics).total_cost ≤
      (log_interaction ⟨1, 2, 3⟩ c7_example_result).total_cost := by
  have hc : (0 : ℚ) ≤ c7_example_result.metadata.costs.total_cost := by
    simp only [c7_example_result]
    norm_num
  have h := c7_session_counters.1 ⟨1, 2, 3⟩ c7_example_result hc
  exact ⟨hc, h.1, h.2.1, h.2.2⟩

end LLMObservatory
